import Mathlib

/-!
Verification of the AutoErrorArticleGen candidate-discovery pipeline and
quality gate (a shallow embedding of `src/discovery/error_finder.py`,
`src/collection/info_collector.py` and `src/publication/quality_checker.py`).

Python floats are modelled as exact rationals (`ℚ`), Python strings as
`List Char`, and Python dicts as structures whose fields carry the keys the
code reads (a key read with `.get(k, 0)` becomes an `Option` field read with
`getD 0`, or a total field when every producer writes the key).
-/

namespace AEAG

/-! ### String helpers shared by the modules -/

/-- Python `str.lower()` on the characters of a string. -/
def lowerStr (s : List Char) : List Char := s.map Char.toLower

/-- Fuel-driven worker for `countSub`; the fuel is an upper bound on the
number of characters consumed, so `countSub` supplies the string length. -/
def countSubFuel (p : List Char) : Nat → List Char → Nat
  | 0, _ => 0
  | _ + 1, [] => 0
  | n + 1, c :: s =>
    if p.isPrefixOf (c :: s) ∧ p ≠ [] then
      1 + countSubFuel p n ((c :: s).drop p.length)
    else
      countSubFuel p n s

/-- Python `s.count(p)` for a non-empty pattern `p`: the number of
non-overlapping occurrences of `p` in `s`, scanning greedily from the left.
(The code only ever counts non-empty patterns.) -/
def countSub (p s : List Char) : Nat := countSubFuel p s.length s

/-- Skip to the end of the current whitespace-free run (helper for
Python `str.split()` with no argument). -/
def dropWord : List Char → List Char
  | [] => []
  | c :: s => if c.isWhitespace then c :: s else dropWord s

/-- Fuel-driven worker for `wordCount`. -/
def wordCountFuel : Nat → List Char → Nat
  | 0, _ => 0
  | _ + 1, [] => 0
  | n + 1, c :: s =>
    if c.isWhitespace then wordCountFuel n s
    else 1 + wordCountFuel n (dropWord s)

/-- Model of `len(s.split())` in Python: the number of maximal non-whitespace runs. -/
def wordCount (s : List Char) : Nat := wordCountFuel s.length s

/-! ### `src/discovery/error_finder.py` — data model -/

/-- One error candidate as produced by the source adapters: every adapter
writes the keys `error_message` and `confidence_score` (plus provenance
fields that the filter/selector never reads, omitted here). -/
structure Candidate where
  error_message : List Char
  confidence_score : ℚ
deriving DecidableEq, Repr

/-- A raw Stack Overflow item as read by the confidence scorer; each metric
is read with `.get(key, 0)`, so a missing key is `none`. -/
structure SOItem where
  score : Option ℕ
  view_count : Option ℕ
  answer_count : Option ℕ

/-- A raw Reddit post as read by the confidence scorer. -/
structure RedditPost where
  ups : Option ℕ
  num_comments : Option ℕ

/-- Model of `ErrorFinder._calculate_stackoverflow_confidence`: additive bucketed
scoring over score / view count / answer count, clamped to at most 1. -/
def _calculate_stackoverflow_confidence (item : SOItem) : ℚ :=
  let score := item.score.getD 0
  let view_count := item.view_count.getD 0
  let answer_count := item.answer_count.getD 0
  let c1 : ℚ :=
    if 10 < score then 3/10 else if 5 < score then 2/10
    else if 0 < score then 1/10 else 0
  let c2 : ℚ := if 1000 < view_count then 2/10 else if 500 < view_count then 1/10 else 0
  let c3 : ℚ := if 2 < answer_count then 3/10 else if 0 < answer_count then 2/10 else 0
  min (c1 + c2 + c3) 1

/-- Model of `ErrorFinder._calculate_reddit_confidence`: additive bucketed scoring
over upvotes / comment count, clamped to at most 1. -/
def _calculate_reddit_confidence (post : RedditPost) : ℚ :=
  let upvotes := post.ups.getD 0
  let comments := post.num_comments.getD 0
  let c1 : ℚ :=
    if 50 < upvotes then 4/10 else if 20 < upvotes then 3/10
    else if 5 < upvotes then 2/10 else 0
  let c2 : ℚ :=
    if 20 < comments then 3/10 else if 10 < comments then 2/10
    else if 5 < comments then 1/10 else 0
  min (c1 + c2) 1

/-! ### `src/discovery/error_finder.py` — filter stage -/

/-- The exclusion keywords hard-coded in `_filter_candidates`. -/
def exclude_keywords : List (List Char) :=
  ["test".toList, "sample".toList, "example".toList, "dummy".toList]

/-- Model of `ErrorFinder._filter_candidates`: keep a candidate iff its confidence is
at least `min_confidence` (config key `min_confidence_score`, default 0.5),
its lowercased text has length at least 10, and no exclusion keyword occurs
as a substring of the lowercased text. The rules short-circuit in this
order, as in the source. -/
def _filter_candidates (min_confidence : ℚ) (candidates : List Candidate) :
    List Candidate :=
  candidates.filter fun candidate =>
    let error_msg := lowerStr candidate.error_message
    decide (min_confidence ≤ candidate.confidence_score) &&
      decide (10 ≤ error_msg.length) &&
      !(exclude_keywords.any fun keyword => decide (keyword <:+: error_msg))

/-- The duplicate-history pass of `find_trending_error`: drop every
candidate whose (raw) text the caller-supplied predicate
`article_manager.is_error_already_processed` reports as processed. -/
def history_filter (processed : List Char → Bool) (l : List Candidate) :
    List Candidate :=
  l.filter fun candidate => !processed candidate.error_message

/-! ### `src/discovery/error_finder.py` — selection stage -/

/-- The comparison handed to the stable sort: `a` may stay before `b`
exactly when `a`'s confidence is at least `b`'s (Python
`sorted(key=confidence_score, reverse=True)` is stable descending). -/
def candLE (a b : Candidate) : Bool :=
  decide (b.confidence_score ≤ a.confidence_score)

/-- Model of `sorted(filtered_candidates, key=lambda x: x.get('confidence_score', 0),
reverse=True)`: a stable descending sort by confidence. -/
def sorted_candidates (pool : List Candidate) : List Candidate :=
  pool.mergeSort candLE

/-- Model of `top_count = max(3, len(sorted_candidates) // 3)`. -/
def top_count (pool : List Candidate) : ℕ := max 3 (pool.length / 3)

/-- Model of `top_candidates = sorted_candidates[:top_count]`. -/
def top_candidates (pool : List Candidate) : List Candidate :=
  (sorted_candidates pool).take (top_count pool)

/-- Model of `weight = max(1, 4 - i)` for window position `i` (0-indexed). -/
def selection_weight (i : ℕ) : ℕ := max 1 (4 - i)

/-- The weight list built by enumerating the selection window. -/
def selection_weights (pool : List Candidate) : List ℕ :=
  (List.range (top_candidates pool).length).map selection_weight

/-- Running sums of a weight list, as produced by `itertools.accumulate`
inside `random.choices` (no leading zero). -/
def accumulate (acc : ℕ) : List ℕ → List ℕ
  | [] => []
  | w :: ws => (acc + w) :: accumulate (acc + w) ws

/-- The index drawn by CPython `random.choices(population, weights)[0]` when
the underlying `random()` call returns `r`: with `cum` the running sums and
`total` their last entry, the index is
`bisect.bisect_right(cum, r * total, 0, len(population) - 1)`, which for an
ascending `cum` is the number of entries of `cum[: n-1]` that are
`≤ r * total`. -/
def choose_index (ws : List ℕ) (r : ℚ) : ℕ :=
  let cum := accumulate 0 ws
  let total : ℚ := (cum.getLastD 0 : ℕ)
  (cum.take (ws.length - 1)).countP fun c : ℕ => decide ((c : ℚ) ≤ r * total)

/-- The weighted random draw of `find_trending_error`, with the random
source made explicit: `r` models the value returned by `random.random()`. -/
def select_candidate (pool : List Candidate) (r : ℚ) : Option Candidate :=
  (top_candidates pool)[choose_index (selection_weights pool) r]?

/-- Model of `ErrorFinder.find_trending_error`, with the source adapters' output
(`all_candidates`), the history predicate and the random draw passed in
explicitly: return `none` when no candidates arrive, when the filter empties
the pool, or when every survivor is already processed; otherwise draw from
the top-K window of the stable descending sort. -/
def find_trending_error (min_confidence : ℚ) (processed : List Char → Bool)
    (all_candidates : List Candidate) (r : ℚ) : Option Candidate :=
  if all_candidates.isEmpty then none
  else
    let filtered := _filter_candidates min_confidence all_candidates
    if filtered.isEmpty then none
    else
      let unique := history_filter processed filtered
      if unique.isEmpty then none
      else select_candidate unique r

/-! ### `src/collection/info_collector.py` — solution aggregation -/

/-- A solution fragment as read by `_integrate_information` (`reliability`
is read with `.get('reliability', 0)`, and every producer writes it; the
other keys are carried through untouched and collapsed into
`description`). -/
structure Solution where
  description : List Char
  reliability : ℚ
deriving DecidableEq, Repr

/-- A source citation as read by `_integrate_information`. -/
structure SourceRef where
  title : List Char
  url : List Char
  reliability : ℚ
deriving DecidableEq, Repr

/-- The comparison handed to the stable in-place sort of the solutions:
Python `solutions.sort(key=lambda x: x.get('reliability', 0),
reverse=True)`. -/
def solLE (a b : Solution) : Bool := decide (b.reliability ≤ a.reliability)

/-- The URL-deduplication loop of `_integrate_information`: walk the
sources in order, keeping a source iff its `url` is non-empty (Python
`if url and ...`) and not yet in the `seen_urls` set. -/
def dedup_sources (seen : List (List Char)) : List SourceRef → List SourceRef
  | [] => []
  | s :: rest =>
    if s.url ≠ [] ∧ s.url ∉ seen then s :: dedup_sources (s.url :: seen) rest
    else dedup_sources seen rest

/-- The integrated bundle built by `_integrate_information`
(`collection_summary` is flattened into the trailing fields). -/
structure IntegratedInfo where
  error_message : List Char
  error_candidate : Candidate
  solutions : List Solution
  sources : List SourceRef
  total_solutions : ℕ
  total_sources : ℕ
  collection_time : ℚ
  reliability_scores : List ℚ
  avg_reliability : ℚ
deriving Repr

/-- Model of `InfoCollector._integrate_information`, with `time.time()` passed in as
`now`. The Python code sorts the caller's `solutions` list **in place**
(`solutions.sort(...)`), so the embedding also returns the post-call state
of that argument as the second component; the summary fields are computed
after the sort, exactly as in the source. -/
def _integrate_information (error_candidate : Candidate)
    (solutions : List Solution) (sources : List SourceRef) (now : ℚ) :
    IntegratedInfo × List Solution :=
  let sorted := solutions.mergeSort solLE
  let unique_sources := dedup_sources [] sources
  (⟨error_candidate.error_message,
    error_candidate,
    sorted.take 10,
    unique_sources.take 15,
    solutions.length,
    unique_sources.length,
    now,
    sorted.map (·.reliability),
    if solutions.isEmpty then 0
    else (sorted.map (·.reliability)).sum / (solutions.length : ℚ)⟩,
   sorted)

/-! ### `src/publication/quality_checker.py` — data model -/

/-- Issue severity. -/
inductive Severity where
  | low
  | medium
  | high
deriving DecidableEq, Repr

/-- The messages the quality checker can attach to an issue, one
constructor per Python format string, carrying the interpolated values. -/
inductive IssueMsg where
  | wordCountLow (word_count min_words : ℕ)
  | wordCountHigh (word_count max_words : ℕ)
  | noTitle
  | titleTooShort
  | titleTooLong
  | noContent
  | noExcerpt
  | excerptLenBad
  | kwNotInTitle
  | kwNotInExcerpt
  | keywordDensityLow (d : ℚ)
  | keywordDensityHigh (d : ℚ)
  | keywordNotEnough
  | slugBad
  | tagsFew
  | noTags
  | imgsNoAlt (n : ℕ)
  | h1Missing
  | h1Multiple (n : ℕ)
  | h2Few
  | h2Missing
  | listFew
  | listMissing
  | paragraphsLong (n : ℕ)
  | sentencesLong
  | kanjiDensityBad (d : ℚ)
  | connectivesFew
  | blankLinesFew
  | titleDupTerm
deriving DecidableEq, Repr

/-- One entry of an `issues` list. -/
structure Issue where
  message : IssueMsg
  severity : Severity
deriving DecidableEq, Repr

/-- The article record the quality gate reads; every field is read with
`.get(key, default)`, so a missing key behaves as the empty value modelled
by the field type. -/
structure Article where
  title : List Char
  content : List Char
  excerpt : List Char
  error_message : List Char
  slug : List Char
  html_content : List Char
  tags : List (List Char)
  word_count : ℕ

/-- The configuration keys the quality gate reads, with their source
defaults. -/
structure QCConfig where
  min_word_count : ℕ := 2000
  max_word_count : ℕ := 8000
  min_seo_score : ℚ := 70
  duplicate_detection : Bool := false
  link_validation : Bool := false

/-- The result of one sub-checker: `{score, max_score, issues, passed}`.
(`_check_readability`'s empty-content early return omits the `passed` key
in the source; the embedding sets it to `false` there, consistent with the
`score >= 60` rule, and nothing ever reads it on that path.) -/
structure CheckResult where
  score : ℕ
  max_score : ℕ
  issues : List Issue
  passed : Bool
deriving Repr

/-! ### `src/publication/quality_checker.py` — string helpers -/

/-- Split on a single character, keeping empty segments (the semantics of
both Python `s.split('\n')` and `re.split` with a single-character class);
the result always has at least one segment. -/
def splitOnChar (sep : Char) : List Char → List (List Char)
  | [] => [[]]
  | c :: s =>
    if c = sep then [] :: splitOnChar sep s
    else
      match splitOnChar sep s with
      | [] => [[c]]
      | t :: ts => (c :: t) :: ts

/-- Model of `re.split(r'[。！？]', content)`: split on any sentence-ending mark. -/
def splitSentences : List Char → List (List Char)
  | [] => [[]]
  | c :: s =>
    if c = '。' ∨ c = '！' ∨ c = '？' then [] :: splitSentences s
    else
      match splitSentences s with
      | [] => [[c]]
      | t :: ts => (c :: t) :: ts

/-- Fuel-driven worker for `splitOnSub`. -/
def splitOnSubFuel (sep : List Char) : Nat → List Char → List (List Char)
  | 0, s => [s]
  | n + 1, s =>
    if sep.isPrefixOf s ∧ sep ≠ [] then
      [] :: splitOnSubFuel sep n (s.drop sep.length)
    else
      match s with
      | [] => [[]]
      | c :: t =>
        match splitOnSubFuel sep n t with
        | [] => [[c]]
        | u :: us => (c :: u) :: us

/-- Python `s.split(sep)` for a non-empty separator string (used with
`'\n\n'` for paragraphs): split at each non-overlapping occurrence,
scanning from the left. -/
def splitOnSub (sep s : List Char) : List (List Char) :=
  splitOnSubFuel sep s.length s

/-- Python `s.strip()`: drop whitespace from both ends. -/
def trimStr (s : List Char) : List Char :=
  ((s.dropWhile Char.isWhitespace).reverse.dropWhile Char.isWhitespace).reverse

/-- A character accepted by the slug pattern `[a-z0-9\-]`. -/
def isSlugChar (c : Char) : Bool :=
  ('a' ≤ c && c ≤ 'z') || ('0' ≤ c && c ≤ '9') || c = '-'

/-- Model of `re.match(r'^[a-z0-9\-]+$', slug)`: a full match of one or more slug
characters; Python's `$` also matches just before one trailing newline, so
a single final `'\n'` is tolerated. -/
def slug_ok (slug : List Char) : Bool :=
  let core := if slug.getLast? = some '\n' then slug.dropLast else slug
  !core.isEmpty && core.all isSlugChar

/-- Fuel-driven worker for `find_img_tags`. -/
def findImgTagsFuel : Nat → List Char → List (List Char)
  | 0, _ => []
  | _ + 1, [] => []
  | n + 1, c :: s =>
    if ("<img".toList).isPrefixOf (c :: s) then
      let after := (c :: s).drop 4
      let body := after.takeWhile (· ≠ '>')
      if body.length < after.length then
        ("<img".toList ++ body ++ ['>']) :: findImgTagsFuel n (after.drop (body.length + 1))
      else
        findImgTagsFuel n s
    else
      findImgTagsFuel n s

/-- Model of `re.findall(r'<img[^>]*>', html_content)`: the non-overlapping `<img`
tags, scanning from the left; a tag with no closing `>` does not match. -/
def find_img_tags (html : List Char) : List (List Char) :=
  findImgTagsFuel html.length html

/-- Whether a line matches the list-item pattern `^[-*+] |^\d+\. `. -/
def lineIsListItem (l : List Char) : Bool :=
  (match l with
   | c :: d :: _ => (c = '-' || c = '*' || c = '+') && d = ' '
   | _ => false) ||
  (let ds := l.takeWhile Char.isDigit
   !ds.isEmpty && ['.', ' '].isPrefixOf (l.drop ds.length))

/-- A CJK ideograph as matched by the readability check's character class
`[一-龯]`. -/
def isKanji (c : Char) : Bool := 0x4e00 ≤ c.toNat && c.toNat ≤ 0x9faf

/-- After the opening parenthesis of the explanation pattern
`term[（\(].*?[）\)]`: is there a closing parenthesis before the next
newline (regex `.` does not cross `'\n'`)? -/
def closeBeforeNewline : List Char → Bool
  | [] => false
  | c :: s =>
    if c = '）' ∨ c = ')' then true
    else if c = '\n' then false
    else closeBeforeNewline s

/-- Does the explanation pattern match starting exactly here? -/
def explainedAt (term s : List Char) : Bool :=
  term.isPrefixOf s &&
    (match s.drop term.length with
     | c :: rest => (c = '（' || c = '(') && closeBeforeNewline rest
     | [] => false)

/-- Model of `re.search(rf'{term}[（\(].*?[）\)]', content)`: the term, immediately
followed by an opening parenthesis, with a closing parenthesis on the same
line. (The source also tests `term in content` first, which the pattern
match implies.) -/
def hasExplained (term content : List Char) : Bool :=
  content.tails.any (explainedAt term)

/-- The index of the last `'\n'` inside a run of whitespace characters
(only called when one exists). -/
def lastNewlineIdx (run : List Char) : Nat :=
  run.length - 1 - run.reverse.indexOf '\n'

/-- Fuel-driven worker for `count_empty_lines`. -/
def countEmptyLinesFuel : Nat → List Char → Nat
  | 0, _ => 0
  | _ + 1, [] => 0
  | n + 1, c :: s =>
    if c = '\n' then
      let run := s.takeWhile Char.isWhitespace
      if '\n' ∈ run then
        1 + countEmptyLinesFuel n (s.drop (lastNewlineIdx run + 1))
      else
        countEmptyLinesFuel n s
    else
      countEmptyLinesFuel n s

/-- Model of `len(re.findall(r'\n\s*\n', content))`: non-overlapping matches of a
newline, greedy whitespace, and a final newline (greediness with
backtracking means each match ends at the last newline of the whitespace
run that follows its first newline). -/
def count_empty_lines (content : List Char) : Nat :=
  countEmptyLinesFuel content.length content

/-! ### `src/publication/quality_checker.py` — sub-checkers -/

/-- Model of `QualityChecker._check_basic_quality`: word count in the configured
window (+30), title length in [20,70] (+25), non-empty content (+20),
excerpt length in [100,160] (+25); issues as in the source. -/
def _check_basic_quality (cfg : QCConfig) (art : Article) : CheckResult :=
  let wordPart : ℕ × List Issue :=
    if art.word_count < cfg.min_word_count then
      (0, [⟨.wordCountLow art.word_count cfg.min_word_count, .high⟩])
    else if cfg.max_word_count < art.word_count then
      (0, [⟨.wordCountHigh art.word_count cfg.max_word_count, .medium⟩])
    else (30, [])
  let titlePart : ℕ × List Issue :=
    if art.title.isEmpty then (0, [⟨.noTitle, .high⟩])
    else if art.title.length < 20 then (0, [⟨.titleTooShort, .medium⟩])
    else if 70 < art.title.length then (0, [⟨.titleTooLong, .medium⟩])
    else (25, [])
  let contentPart : ℕ × List Issue :=
    if art.content.isEmpty then (0, [⟨.noContent, .high⟩]) else (20, [])
  let excerptPart : ℕ × List Issue :=
    if art.excerpt.isEmpty then (0, [⟨.noExcerpt, .medium⟩])
    else if art.excerpt.length < 100 ∨ 160 < art.excerpt.length then
      (0, [⟨.excerptLenBad, .low⟩])
    else (25, [])
  let score := wordPart.1 + titlePart.1 + contentPart.1 + excerptPart.1
  ⟨score, 100, wordPart.2 ++ titlePart.2 ++ contentPart.2 ++ excerptPart.2,
   decide (70 ≤ score)⟩

/-- Model of `keyword_density = (keyword_count / content_words) * 100` where
`keyword_count = content.lower().count(error_message.lower())` and
`content_words = len(content.split())`. -/
def keyword_density (error_message content : List Char) : ℚ :=
  ((countSub (lowerStr error_message) (lowerStr content) : ℚ) /
    (wordCount content : ℚ)) * 100

/-- The score awarded by the keyword-density `if`-chain. -/
def seo_density_score (d : ℚ) : ℕ :=
  if 1 ≤ d ∧ d ≤ 3 then 25
  else if 1/2 ≤ d ∧ d < 1 then 15
  else 0

/-- The issues appended by the keyword-density `if`-chain. -/
def seo_density_issues (d : ℚ) : List Issue :=
  if 1 ≤ d ∧ d ≤ 3 then []
  else if 1/2 ≤ d ∧ d < 1 then [⟨.keywordDensityLow d, .low⟩]
  else if 3 < d then [⟨.keywordDensityHigh d, .medium⟩]
  else [⟨.keywordNotEnough, .medium⟩]

/-- The keyword-in-title block of `_check_seo_quality` (guarded by a
non-empty `error_message`). -/
def seo_title_part (art : Article) : ℕ × List Issue :=
  if art.error_message.isEmpty then (0, [])
  else if lowerStr art.error_message <:+: lowerStr art.title then (20, [])
  else (0, [⟨.kwNotInTitle, .high⟩])

/-- The keyword-in-excerpt block of `_check_seo_quality`. -/
def seo_excerpt_part (art : Article) : ℕ × List Issue :=
  if art.error_message.isEmpty then (0, [])
  else if lowerStr art.error_message <:+: lowerStr art.excerpt then (15, [])
  else (0, [⟨.kwNotInExcerpt, .medium⟩])

/-- The keyword-density block of `_check_seo_quality` (guarded by a
non-empty `error_message`, non-empty `content`, and a positive word
count). -/
def seo_density_part (art : Article) : ℕ × List Issue :=
  if art.error_message.isEmpty ∨ art.content.isEmpty ∨ wordCount art.content = 0
  then (0, [])
  else
    let d := keyword_density art.error_message art.content
    (seo_density_score d, seo_density_issues d)

/-- The slug block of `_check_seo_quality`. -/
def seo_slug_part (art : Article) : ℕ × List Issue :=
  if art.slug.isEmpty then (0, [])
  else if slug_ok art.slug then (10, [])
  else (0, [⟨.slugBad, .low⟩])

/-- The tags block of `_check_seo_quality`. -/
def seo_tags_part (art : Article) : ℕ × List Issue :=
  if 3 ≤ art.tags.length then (15, [])
  else if 1 ≤ art.tags.length then (10, [⟨.tagsFew, .low⟩])
  else (0, [⟨.noTags, .medium⟩])

/-- The image-ALT block of `_check_seo_quality` (guarded by a non-empty
`html_content`; with no `<img>` tag at all the `else` branch still awards
+15, as in the source). -/
def seo_img_part (art : Article) : ℕ × List Issue :=
  if art.html_content.isEmpty then (0, [])
  else
    let img_without_alt := (find_img_tags art.html_content).filter
      fun img => !decide ("alt=".toList <:+: img)
    if img_without_alt.isEmpty then (15, [])
    else (0, [⟨.imgsNoAlt img_without_alt.length, .medium⟩])

/-- Model of `QualityChecker._check_seo_quality`: the six blocks in source order. -/
def _check_seo_quality (art : Article) : CheckResult :=
  let score := (seo_title_part art).1 + (seo_excerpt_part art).1 +
    (seo_density_part art).1 + (seo_slug_part art).1 +
    (seo_tags_part art).1 + (seo_img_part art).1
  ⟨score, 100,
   (seo_title_part art).2 ++ (seo_excerpt_part art).2 ++
     (seo_density_part art).2 ++ (seo_slug_part art).2 ++
     (seo_tags_part art).2 ++ (seo_img_part art).2,
   decide (60 ≤ score)⟩

/-- Model of `QualityChecker._check_content_structure`: heading counts (`^# `,
`^## `, `^### ` with `re.MULTILINE`), list items, fenced-code markers, and
paragraph lengths. -/
def _check_content_structure (art : Article) : CheckResult :=
  let lines := splitOnChar '\n' art.content
  let h1_count := lines.countP fun l => ("# ".toList).isPrefixOf l
  let h2_count := lines.countP fun l => ("## ".toList).isPrefixOf l
  let h3_count := lines.countP fun l => ("### ".toList).isPrefixOf l
  let h1Part : ℕ × List Issue :=
    if h1_count = 1 then (20, [])
    else if h1_count = 0 then (0, [⟨.h1Missing, .high⟩])
    else (0, [⟨.h1Multiple h1_count, .medium⟩])
  let h2Part : ℕ × List Issue :=
    if 3 ≤ h2_count then (25, [])
    else if 1 ≤ h2_count then (15, [⟨.h2Few, .low⟩])
    else (0, [⟨.h2Missing, .medium⟩])
  let h3Part : ℕ × List Issue :=
    if 2 ≤ h3_count then (15, []) else if 1 ≤ h3_count then (10, []) else (0, [])
  let list_count := lines.countP lineIsListItem
  let listPart : ℕ × List Issue :=
    if 3 ≤ list_count then (20, [])
    else if 1 ≤ list_count then (10, [⟨.listFew, .low⟩])
    else (0, [⟨.listMissing, .low⟩])
  let code_blocks := countSub ("```".toList) art.content
  let codePart : ℕ := if 2 ≤ code_blocks then 10 else 0
  let long_paragraphs := (splitOnSub ("\n\n".toList) art.content).filter
    fun p => 500 < p.length
  let paraPart : ℕ × List Issue :=
    if long_paragraphs.isEmpty then (10, [])
    else (0, [⟨.paragraphsLong long_paragraphs.length, .low⟩])
  let score := h1Part.1 + h2Part.1 + h3Part.1 + listPart.1 + codePart + paraPart.1
  ⟨score, 100,
   h1Part.2 ++ h2Part.2 ++ h3Part.2 ++ listPart.2 ++ paraPart.2,
   decide (60 ≤ score)⟩

/-- The technical terms probed by the readability check. -/
def technical_terms : List (List Char) :=
  ["API".toList, "SQL".toList, "HTTP".toList, "URL".toList, "OS".toList,
   "CPU".toList, "RAM".toList]

/-- The connective words counted by the readability check. -/
def connectives : List (List Char) :=
  ["しかし".toList, "ただし".toList, "また".toList, "さらに".toList,
   "そのため".toList, "つまり".toList, "なお".toList]

/-- Model of `QualityChecker._check_readability`: sentence lengths, ideograph
density, explained acronyms, connectives, and blank lines. -/
def _check_readability (art : Article) : CheckResult :=
  if art.content.isEmpty then ⟨0, 100, [⟨.noContent, .high⟩], false⟩
  else
    let content := art.content
    let sentences := splitSentences content
    let long_sentences := sentences.filter fun s => 100 < (trimStr s).length
    let sentPart : ℕ × List Issue :=
      if (long_sentences.length : ℚ) / (sentences.length : ℚ) < 1/5 then (25, [])
      else (0, [⟨.sentencesLong, .medium⟩])
    let kanji_count := content.countP isKanji
    let total_chars := (content.filter fun c => !c.isWhitespace).length
    let kanjiPart : ℕ × List Issue :=
      if total_chars = 0 then (0, [])
      else
        let kanji_density := (kanji_count : ℚ) / (total_chars : ℚ)
        if 1/5 ≤ kanji_density ∧ kanji_density ≤ 2/5 then (25, [])
        else (0, [⟨.kanjiDensityBad kanji_density, .low⟩])
    let explained_terms := technical_terms.countP fun t => hasExplained t content
    let termPart : ℕ := if 0 < explained_terms then 15 else 0
    let connective_count := (connectives.map fun conn => countSub conn content).sum
    let connPart : ℕ × List Issue :=
      if 3 ≤ connective_count then (15, [])
      else if 1 ≤ connective_count then (10, [])
      else (0, [⟨.connectivesFew, .low⟩])
    let empty_lines := count_empty_lines content
    let blankPart : ℕ × List Issue :=
      if 5 ≤ empty_lines then (20, [])
      else if 2 ≤ empty_lines then (15, [])
      else (0, [⟨.blankLinesFew, .low⟩])
    let score := sentPart.1 + kanjiPart.1 + termPart + connPart.1 + blankPart.1
    ⟨score, 100,
     sentPart.2 ++ kanjiPart.2 ++ connPart.2 ++ blankPart.2,
     decide (60 ≤ score)⟩

/-- Model of `QualityChecker._check_duplicates` (returns its issues; `passed` in the
source is exactly "no issues"). -/
def _check_duplicates (art : Article) : List Issue :=
  if 1 < countSub ("解決方法".toList) art.title then [⟨.titleDupTerm, .low⟩]
  else []

/-- The quality report assembled by `check_quality` (`detailed_results` is
flattened into the four sub-result fields and `summary` into the trailing
counters; `overall_score`, `seo_score` and `readability_score` are kept as
exact rationals where the source rounds them to one decimal for display —
the pass/fail comparison uses the unrounded value in the source too). -/
structure QualityReport where
  passed : Bool
  overall_score : ℚ
  seo_score : ℚ
  readability_score : ℚ
  issues : List Issue
  basic_quality : CheckResult
  seo_quality : CheckResult
  content_structure : CheckResult
  readability : CheckResult
  total_issues : ℕ
  high_severity_issues : ℕ
  medium_severity_issues : ℕ
  low_severity_issues : ℕ

/-- Model of `QualityChecker.check_quality`: run the four sub-checkers, the two
optional checks (link validation, whose internals no claim touches, is
abstracted as the caller-supplied `link_check`), sum the scores, and pass
iff the overall score reaches `min_seo_score` (default 70) and no issue has
severity `high`. The source wraps the body in `try/except`; the embedding
is total, so the handler is unreachable. -/
def check_quality (cfg : QCConfig) (link_check : Article → List Issue)
    (art : Article) : QualityReport :=
  let basic := _check_basic_quality cfg art
  let seo := _check_seo_quality art
  let struc := _check_content_structure art
  let readab := _check_readability art
  let dup_issues := _check_duplicates art
  let link_issues := link_check art
  let issues := basic.issues ++ seo.issues ++ struc.issues ++ readab.issues ++
    (if cfg.duplicate_detection && !dup_issues.isEmpty then dup_issues else []) ++
    (if cfg.link_validation && !link_issues.isEmpty then link_issues else [])
  let total_score := basic.score + seo.score + struc.score + readab.score
  let max_score := basic.max_score + seo.max_score + struc.max_score + readab.max_score
  let overall_score : ℚ :=
    if 0 < max_score then (total_score : ℚ) / (max_score : ℚ) * 100 else 0
  let highs := issues.countP fun i => decide (i.severity = Severity.high)
  ⟨decide (cfg.min_seo_score ≤ overall_score) && decide (highs = 0),
   overall_score,
   if 0 < seo.max_score then (seo.score : ℚ) / (seo.max_score : ℚ) * 100 else 0,
   if 0 < readab.max_score then (readab.score : ℚ) / (readab.max_score : ℚ) * 100 else 0,
   issues, basic, seo, struc, readab,
   issues.length, highs,
   issues.countP fun i => decide (i.severity = Severity.medium),
   issues.countP fun i => decide (i.severity = Severity.low)⟩

/-! ## Theorems -/

/-! ### The candidate scorer (claims C4 and C5) -/

theorem so_score_bucket_mono {s t : ℕ} (h : s ≤ t) :
    (if 10 < s then (3:ℚ)/10 else if 5 < s then 2/10 else if 0 < s then 1/10 else 0) ≤
      (if 10 < t then (3:ℚ)/10 else if 5 < t then 2/10 else if 0 < t then 1/10 else 0) := by
  split_ifs <;> first | omega | norm_num

theorem so_view_bucket_mono {s t : ℕ} (h : s ≤ t) :
    (if 1000 < s then (2:ℚ)/10 else if 500 < s then 1/10 else 0) ≤
      (if 1000 < t then (2:ℚ)/10 else if 500 < t then 1/10 else 0) := by
  split_ifs <;> first | omega | norm_num

theorem so_answer_bucket_mono {s t : ℕ} (h : s ≤ t) :
    (if 2 < s then (3:ℚ)/10 else if 0 < s then 2/10 else 0) ≤
      (if 2 < t then (3:ℚ)/10 else if 0 < t then 2/10 else 0) := by
  split_ifs <;> first | omega | norm_num

theorem reddit_ups_bucket_mono {s t : ℕ} (h : s ≤ t) :
    (if 50 < s then (4:ℚ)/10 else if 20 < s then 3/10 else if 5 < s then 2/10 else 0) ≤
      (if 50 < t then (4:ℚ)/10 else if 20 < t then 3/10 else if 5 < t then 2/10 else 0) := by
  split_ifs <;> first | omega | norm_num

theorem reddit_comments_bucket_mono {s t : ℕ} (h : s ≤ t) :
    (if 20 < s then (3:ℚ)/10 else if 10 < s then 2/10 else if 5 < s then 1/10 else 0) ≤
      (if 20 < t then (3:ℚ)/10 else if 10 < t then 2/10 else if 5 < t then 1/10 else 0) := by
  split_ifs <;> first | omega | norm_num

/-- C4: raising any provider metric (question score, view count or answer
count on Stack Overflow; upvotes or comment count on Reddit) while keeping
the others at least as large never lowers the scorer's confidence. -/
theorem scorer_confidence_monotone :
    (∀ a b : SOItem, b.score.getD 0 ≤ a.score.getD 0 →
        b.view_count.getD 0 ≤ a.view_count.getD 0 →
        b.answer_count.getD 0 ≤ a.answer_count.getD 0 →
        _calculate_stackoverflow_confidence b ≤ _calculate_stackoverflow_confidence a)
    ∧ (∀ a b : RedditPost, b.ups.getD 0 ≤ a.ups.getD 0 →
        b.num_comments.getD 0 ≤ a.num_comments.getD 0 →
        _calculate_reddit_confidence b ≤ _calculate_reddit_confidence a) := by
  constructor
  · intro a b hs hv ha
    unfold _calculate_stackoverflow_confidence
    exact min_le_min
      (add_le_add (add_le_add (so_score_bucket_mono hs) (so_view_bucket_mono hv))
        (so_answer_bucket_mono ha)) le_rfl
  · intro a b hu hc
    unfold _calculate_reddit_confidence
    exact min_le_min
      (add_le_add (reddit_ups_bucket_mono hu) (reddit_comments_bucket_mono hc)) le_rfl

/-- C4 witness: the monotonicity theorems applied at concrete items. -/
theorem scorer_confidence_monotone_witness :
    ((⟨some 3, some 600, none⟩ : SOItem).score.getD 0 ≤
        (⟨some 11, some 600, some 1⟩ : SOItem).score.getD 0) ∧
    _calculate_stackoverflow_confidence ⟨some 3, some 600, none⟩ ≤
      _calculate_stackoverflow_confidence ⟨some 11, some 600, some 1⟩ :=
  ⟨by decide,
   scorer_confidence_monotone.1 ⟨some 11, some 600, some 1⟩ ⟨some 3, some 600, none⟩
     (by decide) (by decide) (by decide)⟩

theorem so_score_bucket_nonneg (s : ℕ) :
    0 ≤ (if 10 < s then (3:ℚ)/10 else if 5 < s then 2/10 else if 0 < s then 1/10 else 0) := by
  split_ifs <;> norm_num

theorem so_view_bucket_nonneg (s : ℕ) :
    0 ≤ (if 1000 < s then (2:ℚ)/10 else if 500 < s then 1/10 else 0) := by
  split_ifs <;> norm_num

theorem so_answer_bucket_nonneg (s : ℕ) :
    0 ≤ (if 2 < s then (3:ℚ)/10 else if 0 < s then 2/10 else 0) := by
  split_ifs <;> norm_num

theorem reddit_ups_bucket_nonneg (s : ℕ) :
    0 ≤ (if 50 < s then (4:ℚ)/10 else if 20 < s then 3/10 else if 5 < s then 2/10 else 0) := by
  split_ifs <;> norm_num

theorem reddit_comments_bucket_nonneg (s : ℕ) :
    0 ≤ (if 20 < s then (3:ℚ)/10 else if 10 < s then 2/10 else if 5 < s then 1/10 else 0) := by
  split_ifs <;> norm_num

/-- C5: on every raw item — any non-negative metric values, any metric
missing (`none`, defaulting to 0) — both scorers are total functions into
the closed interval [0,1]. -/
theorem scorer_confidence_in_unit_interval :
    (∀ item : SOItem, 0 ≤ _calculate_stackoverflow_confidence item ∧
        _calculate_stackoverflow_confidence item ≤ 1)
    ∧ (∀ post : RedditPost, 0 ≤ _calculate_reddit_confidence post ∧
        _calculate_reddit_confidence post ≤ 1) := by
  constructor
  · intro item
    unfold _calculate_stackoverflow_confidence
    exact ⟨le_min
      (add_nonneg (add_nonneg (so_score_bucket_nonneg _) (so_view_bucket_nonneg _))
        (so_answer_bucket_nonneg _)) (by norm_num),
      min_le_right _ _⟩
  · intro post
    unfold _calculate_reddit_confidence
    exact ⟨le_min
      (add_nonneg (reddit_ups_bucket_nonneg _) (reddit_comments_bucket_nonneg _))
      (by norm_num),
      min_le_right _ _⟩

/-! ### The filter stage (claim C3) -/

/-- C3: the filter stage (confidence / length / exclusion-keyword rules,
then the caller-supplied duplicate-history predicate) returns a
subsequence of the input pool, and every retained candidate has confidence
at least the configured minimum, a lowercased text of length at least 10
containing no exclusion keyword as a substring, and a text the history
predicate does not report as already processed. -/
theorem filter_stage_spec (min_confidence : ℚ) (processed : List Char → Bool)
    (pool : List Candidate) :
    List.Sublist (history_filter processed (_filter_candidates min_confidence pool)) pool
    ∧ ∀ c ∈ history_filter processed (_filter_candidates min_confidence pool),
        min_confidence ≤ c.confidence_score
        ∧ 10 ≤ (lowerStr c.error_message).length
        ∧ (∀ k ∈ exclude_keywords, ¬ (k <:+: lowerStr c.error_message))
        ∧ processed c.error_message = false := by
  constructor
  · exact (List.filter_sublist _).trans (List.filter_sublist _)
  · intro c hc
    rw [history_filter, List.mem_filter] at hc
    obtain ⟨hcf, hproc⟩ := hc
    rw [_filter_candidates, List.mem_filter] at hcf
    obtain ⟨-, hrules⟩ := hcf
    simp only [Bool.and_eq_true, Bool.not_eq_true', List.any_eq_false,
      decide_eq_true_eq, decide_eq_false_iff_not] at hrules
    exact ⟨hrules.1.1, hrules.1.2, hrules.2, by simpa using hproc⟩

unseal Rat.mul Rat.inv Rat.add in
/-- C3 witness: the filter theorem applied to a one-candidate pool whose
candidate survives every rule. -/
theorem filter_stage_spec_witness :
    (⟨"0123456789".toList, 1⟩ : Candidate) ∈
      history_filter (fun _ => false)
        (_filter_candidates (1/2) [⟨"0123456789".toList, 1⟩])
    ∧ ((1:ℚ)/2 ≤ (⟨"0123456789".toList, 1⟩ : Candidate).confidence_score
        ∧ 10 ≤ (lowerStr (⟨"0123456789".toList, 1⟩ : Candidate).error_message).length
        ∧ (∀ k ∈ exclude_keywords,
            ¬ (k <:+: lowerStr (⟨"0123456789".toList, 1⟩ : Candidate).error_message))
        ∧ (fun _ => false) (⟨"0123456789".toList, 1⟩ : Candidate).error_message = false) :=
  ⟨by decide,
   (filter_stage_spec (1/2) (fun _ => false) [⟨"0123456789".toList, 1⟩]).2
     ⟨"0123456789".toList, 1⟩ (by decide)⟩

/-! ### The selection stage (claims C2 and C6) -/

theorem candLE_trans (a b c : Candidate) :
    candLE a b → candLE b c → candLE a c := by
  simp only [candLE, decide_eq_true_eq]
  exact fun h1 h2 => le_trans h2 h1

theorem candLE_total (a b : Candidate) : candLE a b || candLE b a := by
  simp only [candLE, Bool.or_eq_true, decide_eq_true_eq]
  exact le_total _ _

theorem accumulate_length (acc : ℕ) (ws : List ℕ) :
    (accumulate acc ws).length = ws.length := by
  induction ws generalizing acc with
  | nil => rfl
  | cons w ws ih => simp [accumulate, ih]

/-- The drawn index always lies inside the population: it is bounded by the
`hi = n - 1` cap that `random.choices` passes to `bisect`. -/
theorem choose_index_lt (ws : List ℕ) (r : ℚ) (h : ws ≠ []) :
    choose_index ws r < ws.length := by
  have hlen : 0 < ws.length := List.length_pos.mpr h
  calc choose_index ws r
      ≤ ((accumulate 0 ws).take (ws.length - 1)).length := List.countP_le_length _
    _ ≤ ws.length - 1 := List.length_take_le (ws.length - 1) _
    _ < ws.length := by omega

theorem top_candidates_ne_nil (pool : List Candidate) (h : pool ≠ []) :
    top_candidates pool ≠ [] := by
  have hperm : (sorted_candidates pool).length = pool.length :=
    (List.mergeSort_perm pool candLE).length_eq
  have hpos : 0 < pool.length := List.length_pos.mpr h
  have : 0 < (top_candidates pool).length := by
    rw [top_candidates, List.length_take, hperm, top_count]
    omega
  exact List.length_pos.mp this

/-- The weighted draw always yields an element of the selection window. -/
theorem select_candidate_mem (pool : List Candidate) (r : ℚ) (h : pool ≠ []) :
    ∃ c, select_candidate pool r = some c ∧ c ∈ top_candidates pool := by
  have hws : selection_weights pool ≠ [] := by
    have := top_candidates_ne_nil pool h
    simp only [selection_weights, ne_eq, List.map_eq_nil_iff, List.range_eq_nil]
    intro hc
    exact this (List.length_eq_zero.mp hc)
  have hlt : choose_index (selection_weights pool) r < (top_candidates pool).length := by
    have := choose_index_lt (selection_weights pool) r hws
    simpa [selection_weights] using this
  exact ⟨(top_candidates pool)[choose_index (selection_weights pool) r],
    List.getElem?_eq_getElem hlt, List.getElem_mem hlt⟩

/-- C2: on every non-empty filtered pool the selection stage sorts
descending by confidence, stably (a tied pair keeps its pool order), takes
the window of the top `max 3 (n / 3)` candidates, weights window position
`i` by `max 1 (4 - i)`, and the draw always returns a member of the
window. -/
theorem selection_stage_spec (pool : List Candidate) (hpool : pool ≠ []) :
    (sorted_candidates pool).Pairwise
        (fun a b => b.confidence_score ≤ a.confidence_score)
    ∧ List.Perm (sorted_candidates pool) pool
    ∧ (∀ a b : Candidate, a.confidence_score = b.confidence_score →
        List.Sublist [a, b] pool → List.Sublist [a, b] (sorted_candidates pool))
    ∧ top_candidates pool = (sorted_candidates pool).take (max 3 (pool.length / 3))
    ∧ (∀ i, selection_weight i = max 1 (4 - i))
    ∧ ∀ r : ℚ, ∃ c, select_candidate pool r = some c ∧ c ∈ top_candidates pool := by
  refine ⟨?_, List.mergeSort_perm pool candLE, ?_, rfl, fun i => rfl,
    fun r => select_candidate_mem pool r hpool⟩
  · have := List.sorted_mergeSort candLE_trans candLE_total pool
    exact this.imp fun h => by simpa [candLE] using h
  · intro a b hconf hsub
    exact List.pair_sublist_mergeSort candLE_trans candLE_total
      (by simp [candLE, hconf.ge]) hsub

/-- C2 witness: the selection theorem applied to a concrete two-candidate
pool. -/
theorem selection_stage_spec_witness :
    ([⟨"a".toList, 1⟩, ⟨"b".toList, 2⟩] : List Candidate) ≠ []
    ∧ ((sorted_candidates [⟨"a".toList, 1⟩, ⟨"b".toList, 2⟩]).Pairwise
          (fun a b => b.confidence_score ≤ a.confidence_score)
        ∧ List.Perm (sorted_candidates [⟨"a".toList, 1⟩, ⟨"b".toList, 2⟩])
            [⟨"a".toList, 1⟩, ⟨"b".toList, 2⟩]
        ∧ (∀ a b : Candidate, a.confidence_score = b.confidence_score →
            List.Sublist [a, b] [⟨"a".toList, 1⟩, ⟨"b".toList, 2⟩] →
            List.Sublist [a, b] (sorted_candidates [⟨"a".toList, 1⟩, ⟨"b".toList, 2⟩]))
        ∧ top_candidates [⟨"a".toList, 1⟩, ⟨"b".toList, 2⟩] =
            (sorted_candidates [⟨"a".toList, 1⟩, ⟨"b".toList, 2⟩]).take
              (max 3 (([⟨"a".toList, 1⟩, ⟨"b".toList, 2⟩] : List Candidate).length / 3))
        ∧ (∀ i, selection_weight i = max 1 (4 - i))
        ∧ ∀ r : ℚ, ∃ c,
            select_candidate [⟨"a".toList, 1⟩, ⟨"b".toList, 2⟩] r = some c ∧
              c ∈ top_candidates [⟨"a".toList, 1⟩, ⟨"b".toList, 2⟩]) :=
  ⟨by decide, selection_stage_spec [⟨"a".toList, 1⟩, ⟨"b".toList, 2⟩] (by decide)⟩

/-- The three early-exit checks of `find_trending_error` collapse to a
single test on the filtered-and-deduplicated pool. -/
theorem find_trending_error_eq (min_confidence : ℚ)
    (processed : List Char → Bool) (all_candidates : List Candidate) (r : ℚ) :
    find_trending_error min_confidence processed all_candidates r =
      if (history_filter processed
            (_filter_candidates min_confidence all_candidates)).isEmpty then none
      else select_candidate
        (history_filter processed (_filter_candidates min_confidence all_candidates)) r := by
  rw [find_trending_error]
  by_cases h0 : all_candidates.isEmpty
  · rw [List.isEmpty_iff] at h0
    subst h0
    simp [_filter_candidates, history_filter]
  · rw [if_neg h0]
    by_cases h1 : (_filter_candidates min_confidence all_candidates).isEmpty
    · rw [if_pos h1, List.isEmpty_iff] at *
      simp [h1, history_filter]
    · rw [if_neg h1]

/-- C6: discovery returns `none` exactly when the filtered-and-deduplicated
pool is empty — in particular when the adapters yield nothing, or when
candidates exist but none survive filtering or the history check; in every
other case it returns `some` candidate (the embedding is a total function,
so no input raises). -/
theorem find_trending_error_none_iff (min_confidence : ℚ)
    (processed : List Char → Bool) (all_candidates : List Candidate) (r : ℚ) :
    (find_trending_error min_confidence processed all_candidates r = none ↔
      history_filter processed (_filter_candidates min_confidence all_candidates) = [])
    ∧ (all_candidates = [] →
        find_trending_error min_confidence processed all_candidates r = none)
    ∧ (_filter_candidates min_confidence all_candidates = [] →
        find_trending_error min_confidence processed all_candidates r = none) := by
  rw [find_trending_error_eq]
  refine ⟨⟨?_, ?_⟩, ?_, ?_⟩
  · intro hnone
    by_contra hne
    obtain ⟨c, hc, -⟩ := select_candidate_mem _ r hne
    rw [if_neg (by simpa [List.isEmpty_iff] using hne), hc] at hnone
    exact Option.noConfusion hnone
  · intro hempty
    rw [if_pos (by simp [hempty])]
  · intro hcand
    subst hcand
    simp [_filter_candidates, history_filter]
  · intro hfilt
    rw [if_pos (by simp [hfilt, history_filter])]

/-- C6 witness: the none-contract theorem applied to a pool whose only
candidate is filtered out (text shorter than 10 characters). -/
theorem find_trending_error_none_iff_witness :
    (find_trending_error (1/2) (fun _ => false) [⟨"short".toList, 1⟩] 0 = none ↔
      history_filter (fun _ => false)
        (_filter_candidates (1/2) [⟨"short".toList, 1⟩]) = [])
    ∧ ([⟨"short".toList, 1⟩] = ([] : List Candidate) →
        find_trending_error (1/2) (fun _ => false) [⟨"short".toList, 1⟩] 0 = none)
    ∧ (_filter_candidates (1/2) [⟨"short".toList, 1⟩] = [] →
        find_trending_error (1/2) (fun _ => false) [⟨"short".toList, 1⟩] 0 = none) :=
  find_trending_error_none_iff (1/2) (fun _ => false) [⟨"short".toList, 1⟩] 0

/-! ### The solution aggregator (claims C7 and C10) -/

theorem solLE_trans (a b c : Solution) : solLE a b → solLE b c → solLE a c := by
  simp only [solLE, decide_eq_true_eq]
  exact fun h1 h2 => le_trans h2 h1

theorem solLE_total (a b : Solution) : solLE a b || solLE b a := by
  simp only [solLE, Bool.or_eq_true, decide_eq_true_eq]
  exact le_total _ _

theorem dedup_sources_sublist (seen : List (List Char)) (l : List SourceRef) :
    List.Sublist (dedup_sources seen l) l := by
  induction l generalizing seen with
  | nil => exact List.Sublist.refl _
  | cons s rest ih =>
    rw [dedup_sources]
    split
    · exact (ih _).cons₂ s
    · exact (ih seen).cons s

theorem mem_dedup_sources {seen : List (List Char)} {l : List SourceRef}
    {s : SourceRef} (hs : s ∈ dedup_sources seen l) :
    s.url ≠ [] ∧ s.url ∉ seen ∧ ∃ pre post, l = pre ++ s :: post ∧
      ∀ t ∈ pre, t.url = s.url → t.url ∈ seen := by
  induction l generalizing seen with
  | nil => simp [dedup_sources] at hs
  | cons x rest ih =>
    rw [dedup_sources] at hs
    split at hs
    · rename_i hx
      rcases List.mem_cons.mp hs with rfl | hs'
      · exact ⟨hx.1, hx.2, [], rest, rfl, by simp⟩
      · obtain ⟨hne, hnotin, pre, post, hsplit, hpre⟩ := ih hs'
        have hxs : s.url ≠ x.url := fun hcontra =>
          hnotin (by rw [hcontra]; exact List.mem_cons_self _ _)
        refine ⟨hne, fun hmem => hnotin (List.mem_cons_of_mem _ hmem),
          x :: pre, post, by rw [hsplit, List.cons_append], ?_⟩
        intro t ht hturl
        rcases List.mem_cons.mp ht with rfl | ht'
        · exact absurd hturl.symm hxs
        · have := hpre t ht' hturl
          rcases List.mem_cons.mp this with heq | hseen
          · exact absurd (hturl.symm.trans heq) hxs
          · exact hseen
    · rename_i hx
      obtain ⟨hne, hnotin, pre, post, hsplit, hpre⟩ := ih hs
      push_neg at hx
      refine ⟨hne, hnotin, x :: pre, post, by rw [hsplit, List.cons_append], ?_⟩
      intro t ht hturl
      rcases List.mem_cons.mp ht with rfl | ht'
      · rcases eq_or_ne t.url [] with hnil | hnnil
        · exact absurd (hturl ▸ hnil.symm).symm hne
        · exact hx hnnil
      · exact hpre t ht' hturl

theorem dedup_sources_pairwise (seen : List (List Char)) (l : List SourceRef) :
    (dedup_sources seen l).Pairwise (fun s t => s.url ≠ t.url) := by
  induction l generalizing seen with
  | nil => exact List.Pairwise.nil
  | cons x rest ih =>
    rw [dedup_sources]
    split
    · refine List.Pairwise.cons ?_ (ih _)
      intro t ht
      have := (mem_dedup_sources ht).2.1
      exact fun hxt => this (hxt ▸ List.mem_cons_self _ _)
    · exact ih seen

/-- C7: the aggregated bundle's solutions are the first 10 entries of a
stable descending-by-reliability sort of the raw solutions (so they are
sorted descending, a tied pair keeps its collection order, and there are at
most 10); its citations are pairwise distinct by URL, form a subsequence of
the raw sources of length at most 15, and each kept citation is the first
source carrying its URL. -/
theorem integrate_information_spec (cand : Candidate) (solutions : List Solution)
    (sources : List SourceRef) (now : ℚ) :
    (_integrate_information cand solutions sources now).1.solutions =
        (solutions.mergeSort solLE).take 10
    ∧ (_integrate_information cand solutions sources now).1.solutions.Pairwise
        (fun a b => b.reliability ≤ a.reliability)
    ∧ (_integrate_information cand solutions sources now).1.solutions.length ≤ 10
    ∧ (∀ a b : Solution, a.reliability = b.reliability →
        List.Sublist [a, b] solutions →
        List.Sublist [a, b] (solutions.mergeSort solLE))
    ∧ (_integrate_information cand solutions sources now).1.sources.Pairwise
        (fun s t => s.url ≠ t.url)
    ∧ List.Sublist (_integrate_information cand solutions sources now).1.sources sources
    ∧ (_integrate_information cand solutions sources now).1.sources.length ≤ 15
    ∧ ∀ s ∈ (_integrate_information cand solutions sources now).1.sources,
        ∃ pre post, sources = pre ++ s :: post ∧ ∀ t ∈ pre, t.url ≠ s.url := by
  refine ⟨rfl, ?_, ?_, ?_, ?_, ?_, ?_, ?_⟩
  · exact ((List.sorted_mergeSort solLE_trans solLE_total solutions).sublist
      (List.take_sublist _ _)).imp fun h => by simpa [solLE] using h
  · exact List.length_take_le _ _
  · intro a b hrel hsub
    exact List.pair_sublist_mergeSort solLE_trans solLE_total
      (by simp [solLE, hrel.ge]) hsub
  · exact (dedup_sources_pairwise [] sources).sublist (List.take_sublist _ _)
  · exact (List.take_sublist _ _).trans (dedup_sources_sublist [] sources)
  · exact List.length_take_le _ _
  · intro s hs
    have hmem : s ∈ dedup_sources [] sources :=
      (List.take_sublist _ _).mem hs
    obtain ⟨-, -, pre, post, hsplit, hpre⟩ := mem_dedup_sources hmem
    exact ⟨pre, post, hsplit, fun t ht hturl => by
      simpa using hpre t ht hturl⟩

unseal Rat.mul Rat.inv Rat.add List.mergeSort List.merge in
/-- C7 witness: the aggregation theorem applied to a concrete bundle with a
duplicate URL and unsorted reliabilities. -/
theorem integrate_information_spec_witness :
    (⟨"s1".toList, 1/10⟩ : Solution) ∈
      (_integrate_information ⟨"e".toList, 1⟩
        [⟨"s1".toList, 1/10⟩, ⟨"s2".toList, 9/10⟩]
        [⟨"t".toList, "u".toList, 1⟩, ⟨"t2".toList, "u".toList, 1/2⟩] 0).1.solutions
    ∧ (_integrate_information ⟨"e".toList, 1⟩
        [⟨"s1".toList, 1/10⟩, ⟨"s2".toList, 9/10⟩]
        [⟨"t".toList, "u".toList, 1⟩, ⟨"t2".toList, "u".toList, 1/2⟩] 0).1.sources.Pairwise
        (fun s t => s.url ≠ t.url)
    ∧ (_integrate_information ⟨"e".toList, 1⟩
        [⟨"s1".toList, 1/10⟩, ⟨"s2".toList, 9/10⟩]
        [⟨"t".toList, "u".toList, 1⟩, ⟨"t2".toList, "u".toList, 1/2⟩] 0).1.sources.length ≤ 15 :=
  ⟨by decide,
   (integrate_information_spec ⟨"e".toList, 1⟩
      [⟨"s1".toList, 1/10⟩, ⟨"s2".toList, 9/10⟩]
      [⟨"t".toList, "u".toList, 1⟩, ⟨"t2".toList, "u".toList, 1/2⟩] 0).2.2.2.2.1,
   (integrate_information_spec ⟨"e".toList, 1⟩
      [⟨"s1".toList, 1/10⟩, ⟨"s2".toList, 9/10⟩]
      [⟨"t".toList, "u".toList, 1⟩, ⟨"t2".toList, "u".toList, 1/2⟩] 0).2.2.2.2.2.2.1⟩

unseal Rat.mul Rat.inv Rat.add List.mergeSort List.merge in
/-- C10 counterexample: aggregation does **not** leave the caller's
`raw_solutions` list unchanged — on two solutions stored in ascending
reliability order, the list observed after the call differs from the one
passed in, because `_integrate_information` sorts it in place. -/
theorem integrate_information_mutates_counterexample :
    (_integrate_information ⟨"e".toList, 1⟩
        [⟨"s1".toList, 1/10⟩, ⟨"s2".toList, 9/10⟩] [] 0).2 ≠
      [⟨"s1".toList, 1/10⟩, ⟨"s2".toList, 9/10⟩] := by
  decide

/-- C10 amended: aggregation performs no network or generation activity (it
is a pure function of its inputs in this embedding), but it re-orders the
caller's `raw_solutions` list in place: after the call that list equals the
stable descending-by-reliability sort of its previous contents — a
permutation of, though in general not equal to, the original sequence. -/
theorem integrate_information_post_state (cand : Candidate)
    (solutions : List Solution) (sources : List SourceRef) (now : ℚ) :
    (_integrate_information cand solutions sources now).2 =
        solutions.mergeSort solLE
    ∧ List.Perm (_integrate_information cand solutions sources now).2 solutions :=
  ⟨rfl, List.mergeSort_perm solutions solLE⟩

/-! ### The quality gate (claims C1, C8 and C9) -/

/-- C1: whenever the quality gate reports `passed = true`, the overall
score is at least the configured minimum (`min_seo_score`, default 70) and
the issues list contains no high-severity issue — for every article and
every configuration (including any behaviour of the abstracted link
check). -/
theorem check_quality_passed_invariant (cfg : QCConfig)
    (link_check : Article → List Issue) (art : Article)
    (h : (check_quality cfg link_check art).passed = true) :
    cfg.min_seo_score ≤ (check_quality cfg link_check art).overall_score
    ∧ ∀ i ∈ (check_quality cfg link_check art).issues,
        i.severity ≠ Severity.high := by
  simp only [check_quality] at h ⊢
  rw [Bool.and_eq_true, decide_eq_true_eq, decide_eq_true_eq] at h
  refine ⟨h.1, ?_⟩
  intro i hi
  have := List.countP_eq_zero.mp h.2 i hi
  simpa using this

/-- A concrete passing article for the C1 witness: in-range word count
(`min_word_count = 0`), non-empty title and content, exactly one top-level
heading, no driving keyword, and `min_seo_score = 0`, so no check emits a
high-severity issue and the threshold is met. -/
def witness_article : Article :=
  ⟨"abc".toList, "# x\nhello".toList, [], [], [], [], [], 5⟩

/-- The configuration for the C1 witness. -/
def witness_config : QCConfig := ⟨0, 8000, 0, false, false⟩

unseal Rat.mul Rat.inv Rat.add in
/-- C1 witness: the invariant applied to a configuration and article on
which the gate passes. -/
theorem check_quality_passed_invariant_witness :
    (check_quality witness_config (fun _ => []) witness_article).passed = true
    ∧ (witness_config.min_seo_score ≤
          (check_quality witness_config (fun _ => []) witness_article).overall_score
        ∧ ∀ i ∈ (check_quality witness_config (fun _ => []) witness_article).issues,
            i.severity ≠ Severity.high) :=
  ⟨by decide,
   check_quality_passed_invariant witness_config (fun _ => []) witness_article (by decide)⟩

/-- The article exhibiting a keyword density above 3% for the C8
counterexample: keyword `"boom"`, content of four words each equal to the
keyword (density 100%), keyword present in title and excerpt, three tags. -/
def seo_article : Article :=
  ⟨"boom".toList, "boom boom boom boom".toList, "boom".toList, "boom".toList,
   [], [], ["a".toList, "b".toList, "c".toList], 0⟩

unseal Rat.mul Rat.inv Rat.add in
/-- C8 counterexample: on `seo_article` the keyword density exceeds 3%,
yet the SEO sub-checker emits **no** high-severity issue (the
density-too-high issue carries severity `medium` in the source, line 237 of
`quality_checker.py`), refuting the claim that a density above 3% produces
a high-severity issue. -/
theorem seo_density_high_counterexample :
    3 < keyword_density seo_article.error_message seo_article.content
    ∧ ∀ i ∈ (_check_seo_quality seo_article).issues,
        i.severity ≠ Severity.high := by
  decide

/-- C8 amended: with a non-empty keyword, non-empty content and a positive
word count, the density is occurrences ÷ word count × 100; a density in
[1%, 3%] awards +25, a density in [0.5%, 1%) awards +15, and a density
above 3% produces a **medium**-severity issue (not a high one), which ends
up in the sub-checker's issues list. -/
theorem seo_density_spec (art : Article) (h1 : art.error_message ≠ [])
    (h2 : art.content ≠ []) (h3 : wordCount art.content ≠ 0) :
    keyword_density art.error_message art.content =
      (countSub (lowerStr art.error_message) (lowerStr art.content) : ℚ) /
        (wordCount art.content : ℚ) * 100
    ∧ seo_density_part art =
        (seo_density_score (keyword_density art.error_message art.content),
         seo_density_issues (keyword_density art.error_message art.content))
    ∧ (∀ d : ℚ, 1 ≤ d → d ≤ 3 → seo_density_score d = 25)
    ∧ (∀ d : ℚ, 1/2 ≤ d → d < 1 → seo_density_score d = 15)
    ∧ (∀ d : ℚ, 3 < d →
        seo_density_issues d = [⟨.keywordDensityHigh d, .medium⟩])
    ∧ (3 < keyword_density art.error_message art.content →
        (⟨.keywordDensityHigh (keyword_density art.error_message art.content),
            .medium⟩ : Issue) ∈ (_check_seo_quality art).issues) := by
  have hpart : seo_density_part art =
      (seo_density_score (keyword_density art.error_message art.content),
       seo_density_issues (keyword_density art.error_message art.content)) := by
    rw [seo_density_part, if_neg]
    simp [List.isEmpty_iff, h1, h2, h3]
  have hissue : ∀ d : ℚ, 3 < d →
      seo_density_issues d = [⟨.keywordDensityHigh d, .medium⟩] := by
    intro d hd
    rw [seo_density_issues, if_neg (fun hc => absurd hc.2 (not_le.mpr hd)),
      if_neg (fun hc => absurd hc.2 (not_lt.mpr (by linarith))), if_pos hd]
  refine ⟨rfl, hpart, ?_, ?_, hissue, ?_⟩
  · intro d hd1 hd3
    rw [seo_density_score, if_pos ⟨hd1, hd3⟩]
  · intro d hd1 hd2
    rw [seo_density_score, if_neg (fun hc => absurd hc.1 (not_le.mpr hd2)),
      if_pos ⟨hd1, hd2⟩]
  · intro hd
    simp only [_check_seo_quality]
    rw [hpart, hissue _ hd]
    simp

unseal Rat.mul Rat.inv Rat.add in
/-- C8 witness: the amended density specification applied to
`seo_article` (density 100% > 3%, so the medium-severity issue appears). -/
theorem seo_density_spec_witness :
    seo_article.error_message ≠ [] ∧ seo_article.content ≠ []
    ∧ wordCount seo_article.content ≠ 0
    ∧ (keyword_density seo_article.error_message seo_article.content =
        (countSub (lowerStr seo_article.error_message)
            (lowerStr seo_article.content) : ℚ) /
          (wordCount seo_article.content : ℚ) * 100
      ∧ seo_density_part seo_article =
          (seo_density_score
            (keyword_density seo_article.error_message seo_article.content),
           seo_density_issues
            (keyword_density seo_article.error_message seo_article.content))
      ∧ (∀ d : ℚ, 1 ≤ d → d ≤ 3 → seo_density_score d = 25)
      ∧ (∀ d : ℚ, 1/2 ≤ d → d < 1 → seo_density_score d = 15)
      ∧ (∀ d : ℚ, 3 < d →
          seo_density_issues d = [⟨.keywordDensityHigh d, .medium⟩])
      ∧ (3 < keyword_density seo_article.error_message seo_article.content →
          (⟨.keywordDensityHigh
              (keyword_density seo_article.error_message seo_article.content),
              .medium⟩ : Issue) ∈ (_check_seo_quality seo_article).issues)) :=
  ⟨by decide, by decide, by decide,
   seo_density_spec seo_article (by decide) (by decide) (by decide)⟩

/-- The configuration of the C9 scenario: target word window [3000, 5000],
minimum score 70. -/
def scenario_config : QCConfig := ⟨3000, 5000, 70, false, false⟩

/-- A C9 scenario article with **non-empty** content: word count 500, title
of length 15, empty excerpt, content `"x"`. -/
def scenario_article : Article :=
  ⟨"123456789012345".toList, "x".toList, [], [], [], [], [], 500⟩

/-- C9 counterexample: on an article satisfying every condition of the
claim (word count 500 against [3000, 5000], title length 15, empty excerpt)
whose content is non-empty, the basic-completeness sub-score is 20, not 0 —
the content-existence check (+20) passes, so "all four checks fail" does
not follow from the stated conditions. -/
theorem basic_scenario_counterexample :
    (_check_basic_quality scenario_config scenario_article).score = 20
    ∧ (_check_basic_quality scenario_config scenario_article).score ≠ 0 := by
  decide

/-- C9 amended: with the additional premise that the content is empty, the
scenario holds: the basic-completeness sub-score is 0 (all four checks
fail), the issues contain the high-severity content-too-short entry, and
the overall report has `passed = false` regardless of every other field and
sub-score. -/
theorem basic_scenario_spec (cfg : QCConfig) (link_check : Article → List Issue)
    (art : Article) (hmin : cfg.min_word_count = 3000)
    (_hmax : cfg.max_word_count = 5000) (hwc : art.word_count = 500)
    (htitle : art.title.length = 15) (hex : art.excerpt = [])
    (hct : art.content = []) :
    (_check_basic_quality cfg art).score = 0
    ∧ (⟨.wordCountLow 500 3000, .high⟩ : Issue) ∈
        (check_quality cfg link_check art).issues
    ∧ (check_quality cfg link_check art).passed = false := by
  have htne : art.title ≠ [] := by
    intro hnil
    rw [hnil] at htitle
    simp at htitle
  have hbasic : _check_basic_quality cfg art =
      ⟨0, 100,
       [⟨.wordCountLow 500 3000, .high⟩, ⟨.titleTooShort, .medium⟩,
        ⟨.noContent, .high⟩, ⟨.noExcerpt, .medium⟩], false⟩ := by
    rw [_check_basic_quality, hmin, hwc, hct, hex]
    norm_num [List.isEmpty_iff, htne, htitle]
  refine ⟨by rw [hbasic], ?_, ?_⟩
  · simp only [check_quality, hbasic]
    simp
  · simp only [check_quality, hbasic]
    have : ∀ l : List Issue,
        ((⟨.wordCountLow 500 3000, .high⟩ : Issue) ::
            (⟨.titleTooShort, .medium⟩ : Issue) ::
            (⟨.noContent, .high⟩ : Issue) ::
            (⟨.noExcerpt, .medium⟩ : Issue) :: l).countP
          (fun i => decide (i.severity = Severity.high)) ≠ 0 := by
      intro l
      simp [List.countP_cons]
    simp only [List.cons_append, List.nil_append]
    rw [decide_eq_false (this _), Bool.and_false]

/-- The C9 scenario article with empty content, for the amended witness. -/
def scenario_article_empty : Article :=
  ⟨"123456789012345".toList, [], [], [], [], [], [], 500⟩

/-- C9 witness: the amended scenario applied to the concrete article with
empty content and the scenario configuration. -/
theorem basic_scenario_spec_witness :
    scenario_config.min_word_count = 3000
    ∧ scenario_config.max_word_count = 5000
    ∧ scenario_article_empty.word_count = 500
    ∧ scenario_article_empty.title.length = 15
    ∧ scenario_article_empty.excerpt = []
    ∧ scenario_article_empty.content = []
    ∧ ((_check_basic_quality scenario_config scenario_article_empty).score = 0
      ∧ (⟨.wordCountLow 500 3000, .high⟩ : Issue) ∈
          (check_quality scenario_config (fun _ => []) scenario_article_empty).issues
      ∧ (check_quality scenario_config (fun _ => []) scenario_article_empty).passed
          = false) :=
  ⟨rfl, rfl, rfl, by decide, rfl, rfl,
   basic_scenario_spec scenario_config (fun _ => []) scenario_article_empty
     rfl rfl rfl (by decide) rfl rfl⟩

end AEAG
